import Mathlib

/-!
Verification of the fleet deployment driver
(`src/cmds/fleet/src/cmds/build_systems.rs`).

The development shallowly embeds the per-host deploy state machine
(`BuildSystems::build_task`), the generation-listing parser
(`get_current_generation`), and the fleet dispatcher (`BuildSystems::run`).
Remote command execution is abstracted by an outcome oracle: the embedding
records the exact sequence of commands the driver issues (together with the
retry sleeps) and lets an environment decide, per issued command, whether it
succeeds.  Machine strings are modelled as Lean `String`s, with the
line/token splitting of the Rust code carried out on the underlying
character lists so that everything evaluates by kernel reduction.
-/

namespace Fleet

/-- Splits a character list at every separator recognised by `p`, keeping
empty groups, mirroring `str::split` in Rust. -/
def splitChars (p : Char → Bool) : List Char → List (List Char)
  | [] => [[]]
  | c :: cs =>
    match splitChars p cs with
    | [] => [[]]
    | g :: gs => if p c then [] :: g :: gs else (c :: g) :: gs

/-- Removes leading and trailing whitespace, mirroring `str::trim`. -/
def trimChars (cs : List Char) : List Char :=
  ((cs.dropWhile Char.isWhitespace).reverse.dropWhile Char.isWhitespace).reverse

/-- Whitespace tokenisation, mirroring `str::split_whitespace`: split at
whitespace and drop the empty fragments. -/
def tokenize (cs : List Char) : List (List Char) :=
  (splitChars Char.isWhitespace cs).filter (fun t => t ≠ [])

/-- `str::parse::<u32>`: an optional leading `+`, then one or more ASCII
digits, with the value required to fit in 32 bits (overflow is an error). -/
def parseU32 (s : List Char) : Option Nat :=
  let ds := match s with
    | '+' :: rest => rest
    | l => l
  if ds = [] then none
  else if ds.all (fun c => c.isDigit) then
    let v := ds.foldl (fun a c => a * 10 + (c.toNat - 48)) 0
    if v < 4294967296 then some v else none
  else none

/-- One entry of the profile's generation listing
(struct `Generation` in `build_systems.rs`). -/
structure Generation where
  id : Nat
  current : Bool
  datetime : String
deriving DecidableEq, Repr

/-- The per-line parser inside `get_current_generation`: tokenizes the line,
parses the id as `u32`, reads date and time, and decides `current` from the
optional fourth token, which must be the literal `(current)`; any other
fourth token makes the line parse to `none` (the line is discarded). -/
def parseGenLine (g : List Char) : Option Generation :=
  match tokenize g with
  | id :: date :: time :: rest =>
    match parseU32 id with
    | none => none
    | some n =>
      match rest with
      | [] => some ⟨n, false, String.mk (date ++ ' ' :: time)⟩
      | cur :: _ =>
        if cur = "(current)".toList then some ⟨n, true, String.mk (date ++ ' ' :: time)⟩
        else none
  | _ => none

/-- Whether the per-line parser emits the `unexpected text after generation`
warning: reached only when the id parsed, date/time/current were read with
the fourth token being `(current)`, and a fifth token exists. -/
def genLineExtraWarn (g : List Char) : Bool :=
  match tokenize g with
  | id :: _ :: _ :: cur :: _ :: _ => (parseU32 id).isSome && cur = "(current)".toList
  | _ => false

/-- Whether the per-line parser emits the `bad generation` warning: exactly
when the line is discarded. -/
def genLineBadWarn (g : List Char) : Bool := (parseGenLine g).isNone

/-- The accepted generations of a listing: split the captured stdout on
newlines, trim, drop empty lines, and keep the lines that parse. -/
def acceptedGens (data : String) : List Generation :=
  (((splitChars (fun c => c = '\n') data.toList).map trimChars).filter
    (fun l => l ≠ [])).filterMap parseGenLine

/-- The pure tail of `get_current_generation`: from the accepted
generations, require exactly one marked current.  `itertools::at_most_one`
failing (two or more current) gives `bad list-generations output`; an empty
selection gives `failed to find generation`. -/
def get_current_generation (data : String) : Except String Generation :=
  match (acceptedGens data).filter (fun g => g.current) with
  | [] => .error "failed to find generation"
  | [g] => .ok g
  | _ :: _ :: _ => .error "bad list-generations output"

/-- Modelled from the spec: the Command Builder's immutable command value
(program path, argument vector, optional `sudo` wrap).  The builder itself
(`MyCommand` in `command.rs`) is not part of the sources; only the shape of
the values it produces matters here. -/
structure Cmd where
  program : String
  args : List String
  privileged : Bool
deriving DecidableEq, Repr

/-- An observable step of a deploy task: a command handed to the executor
(with the elevation flag of `run_on`/`run_string_on`, `false` for local
`run_nix` invocations) or a retry sleep. -/
inductive Event
  | run (c : Cmd) (elevate : Bool)
  | sleepMs (ms : Nat)
deriving DecidableEq, Repr

/-- The reasons `build_task` returns `Err` to the dispatcher. -/
inductive DeployError
  | tempdir
  | buildFailed
  | canonicalize
  | upload
  | listGenFailed
  | inspect (msg : String)
  | cwd
  | packageBuild
deriving DecidableEq, Repr

/-- Outcome of the rollback-arming block: `aborted` when
`get_current_generation` (its command or its parse) fails and the `?`
operator propagates, `armed failed` otherwise, with `failed` the latch
after marker placement and watchdog scheduling. -/
inductive ArmOutcome
  | aborted (e : DeployError)
  | armed (failed : Bool)
deriving DecidableEq, Repr

/-- The `upload`/`test`/`boot`/`switch` related subcommands of
`BuildSystems`, plus the package builds. -/
inductive Subcommand
  | upload
  | test
  | boot
  | switch
  | sdImage
  | installationCd
deriving DecidableEq, Repr

/-- The flags of the `BuildSystems` command. -/
structure BuildSystems where
  fail_fast : Bool
  disable_rollback : Bool
  privileged_build : Bool
  subcommand : Subcommand
deriving Repr

/-- `UploadAction`: the mode of an upload that also activates. -/
inductive UploadAction
  | test
  | boot
  | switch
deriving DecidableEq, Repr

/-- `UploadAction::name`. -/
def UploadAction.name : UploadAction → String
  | .test => "test"
  | .boot => "boot"
  | .switch => "switch"

/-- `UploadAction::should_switch_profile`. -/
def UploadAction.should_switch_profile : UploadAction → Bool
  | .switch | .boot => true
  | .test => false

/-- `UploadAction::should_activate`. -/
def UploadAction.should_activate : UploadAction → Bool
  | .switch | .test => true
  | .boot => false

/-- `UploadAction::should_schedule_rollback_run`. -/
def UploadAction.should_schedule_rollback_run : UploadAction → Bool
  | .switch | .test => true
  | .boot => false

/-- `PackageAction`. -/
inductive PackageAction
  | sdImage
  | installationCd
deriving DecidableEq, Repr

/-- `PackageAction::build_attr`. -/
def PackageAction.build_attr : PackageAction → String
  | .sdImage => "sdImage"
  | .installationCd => "installationCd"

/-- `Action`: upload with an optional activation mode, or a package build. -/
inductive Action
  | upload (action : Option UploadAction)
  | package (p : PackageAction)
deriving DecidableEq, Repr

/-- `Action::build_attr`. -/
def Action.build_attr : Action → String
  | .upload _ => "toplevel"
  | .package p => p.build_attr

/-- `impl From<Subcommand> for Action`. -/
def Action.ofSubcommand : Subcommand → Action
  | .upload => .upload none
  | .test => .upload (some .test)
  | .boot => .upload (some .boot)
  | .switch => .upload (some .switch)
  | .sdImage => .package .sdImage
  | .installationCd => .package .installationCd

/-- Modelled from the spec: the slice of `Config` (from `host.rs`, not in
the sources) that `build_task` and `run` consume — the host list, the
`is_local` and `should_skip` predicates, the attribute-name resolver and
the extra nix arguments.  The executor operations are the outcome oracle
`Env`. -/
structure Config where
  hosts : List String
  is_local : String → Bool
  should_skip : String → Bool
  configuration_attr_name : String → String
  nix_args : List String

/-- Modelled from the spec: the Remote Executor collaborator plus the local
filesystem, as an oracle.  `exec n` decides whether the `n`-th command a
task issues succeeds; `listing` is the stdout captured by
`run_string_on` for the generation listing; the remaining fields give the
outcomes and results of the local tempdir / canonicalize / current-dir
operations. -/
structure Env where
  exec : Nat → Bool
  listing : String
  tempdirOk : Bool
  canonOk : Bool
  cwdOk : Bool
  built : String
  canon : String
  cwd : String

/-- Oracle suffix: the outcomes as seen after `k` commands were issued. -/
def shift (o : Nat → Bool) (k : Nat) : Nat → Bool := fun j => o (k + j)

/-- The `nix build` command of the upload path (lines 178–210). -/
def buildCmd (bs : BuildSystems) (cfg : Config) (host built : String) (action : Action) : Cmd :=
  { program := "nix"
    args := ["build", "--impure", "--json", "--no-link", "--option", "log-lines", "200",
        "--out-link", built,
        cfg.configuration_attr_name ("buildSystems." ++ action.build_attr ++ "." ++ host)]
      ++ cfg.nix_args
    privileged := bs.privileged_build }

/-- The `nix copy` command (lines 219–223). -/
def copyCmd (host built : String) : Cmd :=
  { program := "nix"
    args := ["copy", "--substitute-on-destination", "--to", "ssh://root@" ++ host, built]
    privileged := false }

/-- The elevated `nix-env --list-generations` command (lines 119–121). -/
def listGenCmd : Cmd :=
  { program := "nix-env"
    args := ["--profile", "/nix/var/nix/profiles/system", "--list-generations"]
    privileged := false }

/-- The rollback-marker placement command (lines 250–251). -/
def markerCmd (id : Nat) : Cmd :=
  { program := "sh"
    args := ["-c",
      "mark=$(mktemp -p /etc -t fleet_rollback_marker.XXXXX) && echo -n " ++ toString id
        ++ " > $mark && mv --no-clobber $mark /etc/fleet_rollback_marker"]
    privileged := false }

/-- The watchdog kick-off scheduling command (lines 263–268). -/
def scheduleCmd : Cmd :=
  { program := "systemd-run"
    args := ["--on-active", "3min", "--unit", "rollback-watchdog-run",
      "systemctl", "start", "rollback-watchdog.service"]
    privileged := false }

/-- The profile switch command (lines 277–279). -/
def switchProfileCmd (built : String) : Cmd :=
  { program := "nix-env"
    args := ["--profile", "/nix/var/nix/profiles/system", "--set", built]
    privileged := false }

/-- The activation command (lines 288–292). -/
def activateCmd (built : String) (a : UploadAction) : Cmd :=
  { program := built ++ "/bin/switch-to-configuration"
    args := [a.name]
    privileged := false }

/-- The rollback trigger of the finalize phase (lines 303–304). -/
def rollbackTriggerCmd : Cmd :=
  { program := "systemctl", args := ["start", "rollback-watchdog.service"], privileged := false }

/-- The marker removal of the finalize phase (lines 310–311). -/
def removeMarkerCmd : Cmd :=
  { program := "rm", args := ["-f", "/etc/fleet_rollback_marker"], privileged := false }

/-- First disarm command (lines 323–324). -/
def stopTimerCmd : Cmd :=
  { program := "systemctl", args := ["stop", "rollback-watchdog.timer"], privileged := false }

/-- Second disarm command (lines 330–331). -/
def stopRunTimerCmd : Cmd :=
  { program := "systemctl", args := ["stop", "rollback-watchdog-run.timer"], privileged := false }

/-- The `nix copy` retry loop (lines 217–233): run the copy; succeed on
`Ok`; while retries remain, warn, sleep five seconds and try again; with no
retries left, return the error.  Entered with three retries. -/
def copyLoop (c : Cmd) : Nat → (Nat → Bool) → List Event × Nat × Bool
  | 0, o => ([.run c false], 1, o 0)
  | r + 1, o =>
    if o 0 then ([.run c false], 1, true)
    else
      let rest := copyLoop c r (shift o 1)
      ([.run c false, .sleepMs 5000] ++ rest.1, 1 + rest.2.1, rest.2.2)

/-- The upload phase (lines 215–234): skipped entirely on a local host,
otherwise the retry loop.  Returns the events, the number of commands
consumed and whether the closure reached the host. -/
def copyPhase (cfg : Config) (host built : String) (o : Nat → Bool) : List Event × Nat × Bool :=
  if cfg.is_local host then ([], 0, true)
  else copyLoop (copyCmd host built) 3 o

/-- The rollback-arming block (lines 241–274): list the generations (an
executor or parse failure propagates through `?` and aborts the task), then
place the marker and, for modes that schedule the watchdog run, start the
transient `rollback-watchdog-run` unit; those two failures only set the
`failed` latch. -/
def armPhase (a : UploadAction) (o : Nat → Bool) (listing : String) :
    List Event × Nat × ArmOutcome :=
  if o 0 then
    match get_current_generation listing with
    | .error e => ([.run listGenCmd true], 1, .aborted (.inspect e))
    | .ok gen =>
      if a.should_schedule_rollback_run then
        ([.run listGenCmd true, .run (markerCmd gen.id) true, .run scheduleCmd true], 3,
          .armed (!(o 1) || !(o 2)))
      else
        ([.run listGenCmd true, .run (markerCmd gen.id) true], 2, .armed (!(o 1)))
  else ([.run listGenCmd true], 1, .aborted .listGenFailed)

/-- The profile-switch phase (lines 275–284): runs only when the mode
switches profiles and the latch is clear; a failure sets the latch. -/
def switchPhase (a : UploadAction) (built : String) (failed : Bool) (o : Nat → Bool) :
    List Event × Nat × Bool :=
  if a.should_switch_profile && !failed then
    ([.run (switchProfileCmd built) true], 1, !(o 0))
  else ([], 0, failed)

/-- The activation phase (lines 285–297): runs only when the mode activates
and the latch is clear; a failure sets the latch.  `n` counts the commands
the switch phase consumed. -/
def activatePhase (a : UploadAction) (built : String) (failed : Bool) (n : Nat)
    (o : Nat → Bool) : List Event × Nat × Bool :=
  if a.should_activate && !failed then
    ([.run (activateCmd built a) true], 1, !(o n))
  else ([], 0, failed)

/-- The profile-switch and activation phases in sequence (lines 275–297). -/
def switchActivate (a : UploadAction) (built : String) (failed : Bool) (o : Nat → Bool) :
    List Event × Nat × Bool :=
  let s1 := switchPhase a built failed o
  let s2 := activatePhase a built s1.2.2 s1.2.1 o
  (s1.1 ++ s2.1, s1.2.1 + s2.2.1, s2.2.2)

/-- The finalize and disarm phases (lines 298–336): trigger the rollback
service when the latch is set, otherwise remove the marker; then stop the
watchdog timer and, for modes that scheduled the run, the run timer.  All
outcomes here are logged or ignored, never propagated. -/
def finalizeDisarm (a : UploadAction) (failed : Bool) : List Event :=
  (if failed then [Event.run rollbackTriggerCmd true] else [Event.run removeMarkerCmd true])
    ++ [Event.run stopTimerCmd true]
    ++ (if a.should_schedule_rollback_run then [Event.run stopRunTimerCmd true] else [])

/-- Everything after a successful upload when a mode is present (lines
235–338): arm (unless rollback is disabled), switch, activate, finalize,
disarm.  Only an arm-phase abort produces an `Err`. -/
def uploadRest (bs : BuildSystems) (a : UploadAction) (built : String) (o : Nat → Bool)
    (listing : String) : List Event × Except DeployError Unit :=
  if bs.disable_rollback then
    ((switchActivate a built false o).1, .ok ())
  else
    match armPhase a o listing with
    | (t, _, .aborted e) => (t, .error e)
    | (t, n, .armed failed) =>
      let sa := switchActivate a built failed (shift o n)
      (t ++ sa.1 ++ finalizeDisarm a sa.2.2, .ok ())

/-- The continuation after a successful copy: nothing for the plain
`upload` subcommand, `uploadRest` when a mode is present. -/
def afterCopy (bs : BuildSystems) (mode : Option UploadAction) (built : String)
    (o : Nat → Bool) (listing : String) : List Event × Except DeployError Unit :=
  match mode with
  | none => ([], .ok ())
  | some a => uploadRest bs a built o listing

/-- `sd-image-<host>` / `installation-cd-<host>` under the current
directory (lines 341–342 and 361–362). -/
def packageOutName (p : PackageAction) (host : String) : String :=
  (match p with
    | .sdImage => "sd-image-"
    | .installationCd => "installation-cd-") ++ host

/-- The package-branch build command (lines 345–357 and 364–381):
`--keep-going` is appended after the extra nix arguments when `fail_fast`
is not set. -/
def packageCmd (bs : BuildSystems) (cfg : Config) (host out : String) (p : PackageAction) : Cmd :=
  { program := "nix"
    args := ["build", "--impure", "--no-link", "--out-link", out,
        cfg.configuration_attr_name ("buildSystems." ++ p.build_attr ++ "." ++ host)]
      ++ cfg.nix_args
      ++ (if bs.fail_fast then [] else ["--keep-going"])
    privileged := bs.privileged_build }

/-- `BuildSystems::build_task` (lines 170–387): the per-host deploy task.
Returns the sequence of observable events and the task's result. -/
def build_task (bs : BuildSystems) (cfg : Config) (host : String) (env : Env) :
    List Event × Except DeployError Unit :=
  let action := Action.ofSubcommand bs.subcommand
  if env.tempdirOk then
    let t0 : List Event := [.run (buildCmd bs cfg host env.built action) false]
    if env.exec 0 then
      if env.canonOk then
        match action with
        | .upload mode =>
          let cp := copyPhase cfg host env.canon (shift env.exec 1)
          if cp.2.2 then
            let rest := afterCopy bs mode env.canon (shift env.exec (1 + cp.2.1)) env.listing
            (t0 ++ cp.1 ++ rest.1, rest.2)
          else (t0 ++ cp.1, .error .upload)
        | .package p =>
          if env.cwdOk then
            let pc := packageCmd bs cfg host (env.cwd ++ "/" ++ packageOutName p host) p
            if env.exec 1 then (t0 ++ [.run pc false], .ok ())
            else (t0 ++ [.run pc false], .error .packageBuild)
          else (t0, .error .cwd)
      else (t0, .error .canonicalize)
    else (t0, .error .buildFailed)
  else ([], .error .tempdir)

/-- The dispatcher's per-task wrapper (lines 402–409): an `Err` is caught
and logged at error level, an `Ok` passes silently. -/
def logTaskError : Except DeployError Unit → Option DeployError
  | .ok _ => none
  | .error e => some e

/-- `BuildSystems::run` (lines 389–415) after a successful host
enumeration: spawn one deploy task per non-skipped host, record what each
task's wrapper logged, and return `Ok` unconditionally. -/
def run (bs : BuildSystems) (cfg : Config) (env : String → Env) :
    List (String × Option DeployError) × Except DeployError Unit :=
  let spawned := cfg.hosts.filter (fun h => !cfg.should_skip h)
  (spawned.map (fun h => (h, logTaskError (build_task bs cfg h (env h)).2)), .ok ())

/-- Occurrences of the executor event `run c e` in a trace. -/
def countCmd (t : List Event) (c : Cmd) (e : Bool) : Nat :=
  (t.filter (fun ev => decide (ev = Event.run c e))).length

/-- The trace shape of `k` failed copy attempts, each followed by the
five-second retry sleep. -/
def copyFailTrace (c : Cmd) : Nat → List Event
  | 0 => []
  | k + 1 => [.run c false, .sleepMs 5000] ++ copyFailTrace c k

/-- An oracle under which every command succeeds. -/
def allOk : Nat → Bool := fun _ => true

/-- A single-host configuration with a remote (non-local) host. -/
def cfgRemote : Config :=
  { hosts := ["h1"], is_local := fun _ => false, should_skip := fun _ => false,
    configuration_attr_name := fun s => s, nix_args := [] }

/-- A listing with the unique current generation 42. -/
def listingOk : String := "41 2023-12-31 11:00:00\n42 2024-01-01 12:00:00 (current)"

/-- An environment where every command and local operation succeeds and the
listing has a unique current generation. -/
def envOk : Env :=
  { exec := allOk, listing := listingOk, tempdirOk := true, canonOk := true,
    cwdOk := true, built := "/tmp/out", canon := "/nix/store/sys", cwd := "/w" }

/-- The `switch` subcommand with every flag off. -/
def bsSwitch : BuildSystems :=
  { fail_fast := false, disable_rollback := false, privileged_build := false,
    subcommand := .switch }

/-- The `switch` subcommand with automatic rollback disabled. -/
def bsSwitchNoRb : BuildSystems :=
  { fail_fast := false, disable_rollback := true, privileged_build := false,
    subcommand := .switch }

/-- Claim C7: the Generation Inspector's line parser maps
`42 2024-01-01 12:00:00 (current)` to id 42, current, datetime
`2024-01-01 12:00:00`; maps the three-token `41 2023-12-31 11:00:00` to a
non-current generation; discards every line whose fourth token is not the
literal `(current)`; and accepts, with the extra-text warning, a line with
further tokens after the `(current)` marker. -/
theorem generation_line_parse :
    parseGenLine "42 2024-01-01 12:00:00 (current)".toList =
      some ⟨42, true, "2024-01-01 12:00:00"⟩ ∧
    parseGenLine "41 2023-12-31 11:00:00".toList =
      some ⟨41, false, "2023-12-31 11:00:00"⟩ ∧
    (∀ g id date time cur rest, tokenize g = id :: date :: time :: cur :: rest →
      cur ≠ "(current)".toList → parseGenLine g = none) ∧
    (parseGenLine "42 2024-01-01 12:00:00 (current) extra".toList =
      some ⟨42, true, "2024-01-01 12:00:00"⟩ ∧
      genLineExtraWarn "42 2024-01-01 12:00:00 (current) extra".toList = true) := by
  refine ⟨by decide, by decide, ?_, by decide, by decide⟩
  intro g id date time cur rest h hcur
  rcases hu : parseU32 id with _ | n <;>
    simp [parseGenLine, h, hu] <;> simpa using hcur

/-- Claim C7 witness: the discard clause at a concrete line whose fourth
token is not `(current)`. -/
theorem generation_line_parse_witness :
    parseGenLine "7 2024-01-01 12:00:00 (bogus)".toList = none :=
  generation_line_parse.2.2.1 "7 2024-01-01 12:00:00 (bogus)".toList
    "7".toList "2024-01-01".toList "12:00:00".toList "(bogus)".toList []
    (by decide) (by decide)

/-- Claim C6: `get_current_generation` fails with `bad list-generations
output` when the accepted lines hold two or more current generations, fails
with the distinct `failed to find generation` when they hold none, and
returns the unique current generation otherwise; a line whose id token does
not parse as a `u32` is discarded with the `bad generation` warning and, as
the concrete two-line listing shows, does not by itself fail a call whose
other line is the unique current one. -/
theorem current_generation_selection :
    (∀ data g1 g2 rest,
      (acceptedGens data).filter (fun g => g.current) = g1 :: g2 :: rest →
      get_current_generation data = .error "bad list-generations output") ∧
    (∀ data, (acceptedGens data).filter (fun g => g.current) = [] →
      get_current_generation data = .error "failed to find generation") ∧
    (∀ data g, (acceptedGens data).filter (fun g => g.current) = [g] →
      get_current_generation data = .ok g) ∧
    (∀ line id rest, tokenize line = id :: rest → parseU32 id = none →
      parseGenLine line = none ∧ genLineBadWarn line = true) ∧
    get_current_generation "x9 2024-01-01 10:00:00\n42 2024-01-01 12:00:00 (current)" =
      .ok ⟨42, true, "2024-01-01 12:00:00"⟩ := by
  refine ⟨?_, ?_, ?_, ?_, by rfl⟩
  · intro data g1 g2 rest h
    simp only [get_current_generation, h]
  · intro data h
    simp only [get_current_generation, h]
  · intro data g h
    simp only [get_current_generation, h]
  · intro line id rest h hu
    have hp : parseGenLine line = none := by
      rcases rest with _ | ⟨d, rest⟩
      · simp [parseGenLine, h]
      · rcases rest with _ | ⟨t, rest⟩
        · simp [parseGenLine, h]
        · simp [parseGenLine, h, hu]
    exact ⟨hp, by simp [genLineBadWarn, hp]⟩

/-- Claim C6 witness: the no-current-generation error at a concrete
listing, and the skip clause at a concrete non-numeric id. -/
theorem current_generation_selection_witness :
    get_current_generation "41 2023-12-31 11:00:00" = .error "failed to find generation" ∧
    parseGenLine "x9 2024-01-01 10:00:00".toList = none :=
  ⟨current_generation_selection.2.1 "41 2023-12-31 11:00:00" (by rfl),
    (current_generation_selection.2.2.2.1 "x9 2024-01-01 10:00:00".toList "x9".toList
      ["2024-01-01".toList, "10:00:00".toList] (by decide) (by decide)).1⟩

theorem countCmd_append (t1 t2 : List Event) (c : Cmd) (e : Bool) :
    countCmd (t1 ++ t2) c e = countCmd t1 c e + countCmd t2 c e := by
  simp [countCmd, List.filter_append]

theorem countCmd_eq_zero {t : List Event} {c : Cmd} {e : Bool}
    (h : ∀ ev ∈ t, ev ≠ Event.run c e) : countCmd t c e = 0 := by
  simp only [countCmd, List.length_eq_zero, List.filter_eq_nil_iff]
  intro a ha
  simp [h a ha]

theorem string_append_ne {s t u : String} (h : u.length < t.length) : s ++ t ≠ u := by
  intro he
  have hl := congrArg String.length he
  rw [String.length_append] at hl
  omega

theorem copyLoop_mem (c : Cmd) (r : Nat) (o : Nat → Bool) :
    ∀ e ∈ (copyLoop c r o).1, e = Event.run c false ∨ e = Event.sleepMs 5000 := by
  induction r generalizing o with
  | zero =>
    intro e he
    simp only [copyLoop, List.mem_singleton] at he
    exact Or.inl he
  | succ r ih =>
    intro e he
    cases h0 : o 0 with
    | true =>
      simp only [copyLoop, h0, if_pos, List.mem_singleton] at he
      exact Or.inl he
    | false =>
      simp only [copyLoop, h0, Bool.false_eq_true, if_false, List.cons_append,
        List.nil_append, List.mem_cons] at he
      rcases he with h | h | h
      · exact Or.inl h
      · exact Or.inr h
      · exact ih (shift o 1) e h

theorem copyLoop_count_le (c : Cmd) (r : Nat) (o : Nat → Bool) :
    countCmd (copyLoop c r o).1 c false ≤ r + 1 := by
  induction r generalizing o with
  | zero => simp [copyLoop, countCmd]
  | succ r ih =>
    cases h0 : o 0 with
    | true => simp [copyLoop, h0, countCmd]
    | false =>
      have hrec := ih (shift o 1)
      simp only [copyLoop, h0, Bool.false_eq_true, if_false]
      rw [show ([Event.run c false, Event.sleepMs 5000] ++ (copyLoop c r (shift o 1)).1 :
          List Event) = [Event.run c false, Event.sleepMs 5000] ++ (copyLoop c r (shift o 1)).1
        from rfl, countCmd_append]
      have h1 : countCmd [Event.run c false, Event.sleepMs 5000] c false = 1 := by
        simp [countCmd]
      omega

theorem copyLoop_firstFail (c : Cmd) (o : Nat → Bool) (k : Nat) (hk : k ≤ 3)
    (hfail : ∀ i < k, o i = false) (hok : o k = true) :
    copyLoop c 3 o = (copyFailTrace c k ++ [Event.run c false], k + 1, true) := by
  interval_cases k
  · simp [copyLoop, copyFailTrace, hok]
  · have h0 := hfail 0 (by omega)
    simp [copyLoop, copyFailTrace, shift, h0, hok]
  · have h0 := hfail 0 (by omega)
    have h1 := hfail 1 (by omega)
    simp [copyLoop, copyFailTrace, shift, h0, h1, hok]
  · have h0 := hfail 0 (by omega)
    have h1 := hfail 1 (by omega)
    have h2 := hfail 2 (by omega)
    simp [copyLoop, copyFailTrace, shift, h0, h1, h2, hok]

theorem copyLoop_allFail (c : Cmd) (o : Nat → Bool) (h : ∀ i < 4, o i = false) :
    copyLoop c 3 o = (copyFailTrace c 3 ++ [Event.run c false], 4, false) := by
  have h0 := h 0 (by omega)
  have h1 := h 1 (by omega)
  have h2 := h 2 (by omega)
  have h3 := h 3 (by omega)
  simp [copyLoop, copyFailTrace, shift, h0, h1, h2, h3]

theorem copyPhase_mem (cfg : Config) (host built : String) (o : Nat → Bool) :
    ∀ e ∈ (copyPhase cfg host built o).1,
      e = Event.run (copyCmd host built) false ∨ e = Event.sleepMs 5000 := by
  intro e he
  unfold copyPhase at he
  cases hl : cfg.is_local host with
  | true => simp [hl] at he
  | false =>
    simp only [hl, Bool.false_eq_true, if_false] at he
    exact copyLoop_mem _ _ _ e he

theorem armPhase_mem (a : UploadAction) (o : Nat → Bool) (l : String) :
    ∀ e ∈ (armPhase a o l).1,
      e = Event.run listGenCmd true ∨ (∃ g, e = Event.run (markerCmd g) true) ∨
        e = Event.run scheduleCmd true := by
  intro e he
  unfold armPhase at he
  cases h0 : o 0 with
  | false =>
    simp only [h0, Bool.false_eq_true, if_false, List.mem_singleton] at he
    exact Or.inl he
  | true =>
    simp only [h0, if_pos] at he
    cases hg : get_current_generation l with
    | error m =>
      simp only [hg, List.mem_singleton] at he
      exact Or.inl he
    | ok gen =>
      cases hs : a.should_schedule_rollback_run with
      | true =>
        simp only [hg, hs, if_pos, List.mem_cons, List.mem_singleton,
          List.not_mem_nil, or_false] at he
        rcases he with h | h | h
        · exact Or.inl h
        · exact Or.inr (Or.inl ⟨gen.id, h⟩)
        · exact Or.inr (Or.inr h)
      | false =>
        simp only [hg, hs, Bool.false_eq_true, if_false, List.mem_cons,
          List.mem_singleton, List.not_mem_nil, or_false] at he
        rcases he with h | h
        · exact Or.inl h
        · exact Or.inr (Or.inl ⟨gen.id, h⟩)

theorem switchPhase_mem (a : UploadAction) (built : String) (failed : Bool) (o : Nat → Bool) :
    ∀ e ∈ (switchPhase a built failed o).1, e = Event.run (switchProfileCmd built) true := by
  intro e he
  unfold switchPhase at he
  cases hc : (a.should_switch_profile && !failed) <;> simp [hc] at he
  exact he

theorem activatePhase_mem (a : UploadAction) (built : String) (failed : Bool) (n : Nat)
    (o : Nat → Bool) :
    ∀ e ∈ (activatePhase a built failed n o).1, e = Event.run (activateCmd built a) true := by
  intro e he
  unfold activatePhase at he
  cases hc : (a.should_activate && !failed) <;> simp [hc] at he
  exact he

theorem switchActivate_mem (a : UploadAction) (built : String) (failed : Bool) (o : Nat → Bool) :
    ∀ e ∈ (switchActivate a built failed o).1,
      e = Event.run (switchProfileCmd built) true ∨
        e = Event.run (activateCmd built a) true := by
  intro e he
  unfold switchActivate at he
  rcases List.mem_append.mp he with h | h
  · exact Or.inl (switchPhase_mem a built failed o e h)
  · exact Or.inr (activatePhase_mem a built _ _ o e h)

theorem finalizeDisarm_mem (a : UploadAction) (failed : Bool) :
    ∀ e ∈ finalizeDisarm a failed,
      e = Event.run rollbackTriggerCmd true ∨ e = Event.run removeMarkerCmd true ∨
        e = Event.run stopTimerCmd true ∨ e = Event.run stopRunTimerCmd true := by
  intro e he
  unfold finalizeDisarm at he
  cases failed <;> cases hs : a.should_schedule_rollback_run <;>
    simp [hs] at he <;> tauto

theorem cmd_ne_of_program_ne {c1 c2 : Cmd} (h : c1.program ≠ c2.program) : c1 ≠ c2 :=
  fun he => h (congrArg Cmd.program he)

theorem switchProfileCmd_ne (built : String) (c : Cmd) (h : c.program ≠ "nix-env") :
    switchProfileCmd built ≠ c :=
  cmd_ne_of_program_ne (fun he => h he.symm)

theorem activateCmd_ne (built : String) (a : UploadAction) (c : Cmd)
    (h : c.program.length < 28) : activateCmd built a ≠ c := by
  apply cmd_ne_of_program_ne
  have : (activateCmd built a).program = built ++ "/bin/switch-to-configuration" := rfl
  rw [this]
  apply string_append_ne
  have h28 : ("/bin/switch-to-configuration" : String).length = 28 := rfl
  omega

theorem armPhase_count_remove (a : UploadAction) (o : Nat → Bool) (l : String) :
    countCmd (armPhase a o l).1 removeMarkerCmd true = 0 := by
  apply countCmd_eq_zero
  intro ev hev
  rcases armPhase_mem a o l ev hev with h | ⟨g, h⟩ | h <;> subst h <;>
    simp [listGenCmd, markerCmd, scheduleCmd, removeMarkerCmd]

theorem armPhase_count_trigger (a : UploadAction) (o : Nat → Bool) (l : String) :
    countCmd (armPhase a o l).1 rollbackTriggerCmd true = 0 := by
  apply countCmd_eq_zero
  intro ev hev
  rcases armPhase_mem a o l ev hev with h | ⟨g, h⟩ | h <;> subst h <;>
    simp [listGenCmd, markerCmd, scheduleCmd, rollbackTriggerCmd]

theorem switchActivate_count_zero (a : UploadAction) (built : String) (failed : Bool)
    (o : Nat → Bool) (c : Cmd) (h1 : switchProfileCmd built ≠ c)
    (h2 : activateCmd built a ≠ c) :
    countCmd (switchActivate a built failed o).1 c true = 0 := by
  apply countCmd_eq_zero
  intro ev hev
  rcases switchActivate_mem a built failed o ev hev with h | h <;> subst h <;> simp [h1, h2]

theorem finalizeDisarm_count_remove (a : UploadAction) (failed : Bool) :
    countCmd (finalizeDisarm a failed) removeMarkerCmd true = if failed then 0 else 1 := by
  cases failed <;> cases a <;> decide

theorem finalizeDisarm_count_trigger (a : UploadAction) (failed : Bool) :
    countCmd (finalizeDisarm a failed) rollbackTriggerCmd true = if failed then 1 else 0 := by
  cases failed <;> cases a <;> decide

theorem uploadRest_armed (bs : BuildSystems) (a : UploadAction) (built : String)
    (o : Nat → Bool) (l : String) (t : List Event) (n : Nat) (failed : Bool)
    (hdr : bs.disable_rollback = false)
    (harm : armPhase a o l = (t, n, .armed failed)) :
    uploadRest bs a built o l =
      (t ++ (switchActivate a built failed (shift o n)).1
          ++ finalizeDisarm a (switchActivate a built failed (shift o n)).2.2,
        .ok ()) := by
  unfold uploadRest
  rw [hdr, harm]
  simp

theorem uploadRest_aborted (bs : BuildSystems) (a : UploadAction) (built : String)
    (o : Nat → Bool) (l : String) (t : List Event) (n : Nat) (e : DeployError)
    (hdr : bs.disable_rollback = false)
    (harm : armPhase a o l = (t, n, .aborted e)) :
    uploadRest bs a built o l = (t, .error e) := by
  unfold uploadRest
  rw [hdr, harm]
  simp

theorem build_task_upload (bs : BuildSystems) (cfg : Config) (host : String) (env : Env)
    (mode : Option UploadAction)
    (hmode : Action.ofSubcommand bs.subcommand = .upload mode)
    (ht : env.tempdirOk = true) (hb : env.exec 0 = true) (hc : env.canonOk = true)
    (hcp : (copyPhase cfg host env.canon (shift env.exec 1)).2.2 = true) :
    build_task bs cfg host env =
      ([Event.run (buildCmd bs cfg host env.built (.upload mode)) false]
          ++ (copyPhase cfg host env.canon (shift env.exec 1)).1
          ++ (afterCopy bs mode env.canon
                (shift env.exec (1 + (copyPhase cfg host env.canon (shift env.exec 1)).2.1))
                env.listing).1,
        (afterCopy bs mode env.canon
            (shift env.exec (1 + (copyPhase cfg host env.canon (shift env.exec 1)).2.1))
            env.listing).2) := by
  unfold build_task
  rw [hmode, ht, hb, hc]
  simp [hcp]

theorem build_task_upload_copyFail (bs : BuildSystems) (cfg : Config) (host : String)
    (env : Env) (mode : Option UploadAction)
    (hmode : Action.ofSubcommand bs.subcommand = .upload mode)
    (ht : env.tempdirOk = true) (hb : env.exec 0 = true) (hc : env.canonOk = true)
    (hcp : (copyPhase cfg host env.canon (shift env.exec 1)).2.2 = false) :
    build_task bs cfg host env =
      ([Event.run (buildCmd bs cfg host env.built (.upload mode)) false]
          ++ (copyPhase cfg host env.canon (shift env.exec 1)).1,
        .error .upload) := by
  unfold build_task
  rw [hmode, ht, hb, hc]
  simp [hcp]

theorem armPhase_cases (a : UploadAction) (o : Nat → Bool) (l : String) :
    (o 0 = false ∧ armPhase a o l = ([Event.run listGenCmd true], 1, .aborted .listGenFailed)) ∨
    (o 0 = true ∧ ∃ m, get_current_generation l = .error m ∧
      armPhase a o l = ([Event.run listGenCmd true], 1, .aborted (.inspect m))) ∨
    (o 0 = true ∧ ∃ gen, get_current_generation l = .ok gen ∧
      ∃ t n failed, armPhase a o l = (t, n, .armed failed)) := by
  cases h0 : o 0 with
  | false => exact Or.inl ⟨rfl, by simp [armPhase, h0]⟩
  | true =>
    cases hg : get_current_generation l with
    | error m => exact Or.inr (Or.inl ⟨rfl, m, rfl, by simp [armPhase, h0, hg]⟩)
    | ok gen =>
      refine Or.inr (Or.inr ⟨rfl, gen, rfl, ?_⟩)
      cases hs : a.should_schedule_rollback_run with
      | true =>
        exact ⟨[Event.run listGenCmd true, Event.run (markerCmd gen.id) true,
          Event.run scheduleCmd true], 3, (!(o 1) || !(o 2)), by simp [armPhase, h0, hg, hs]⟩
      | false =>
        exact ⟨[Event.run listGenCmd true, Event.run (markerCmd gen.id) true], 2, !(o 1),
          by simp [armPhase, h0, hg, hs]⟩

theorem uploadRest_result (bs : BuildSystems) (a : UploadAction) (built : String)
    (o : Nat → Bool) (l : String) (hdr : bs.disable_rollback = false) :
    ((uploadRest bs a built o l).2 = .ok ()) ↔
      (o 0 = true ∧ ∃ g, get_current_generation l = .ok g) := by
  rcases armPhase_cases a o l with ⟨h0, harm⟩ | ⟨h0, m, hg, harm⟩ | ⟨h0, gen, hg, t, n, failed, harm⟩
  · rw [uploadRest_aborted bs a built o l _ _ _ hdr harm]
    simp [h0]
  · rw [uploadRest_aborted bs a built o l _ _ _ hdr harm]
    simp [h0, hg]
  · rw [uploadRest_armed bs a built o l _ _ _ hdr harm]
    simp [h0, hg]

/-- An environment identical to `envOk` except that the generation listing
has no line marked current. -/
def envNoCurrent : Env := { envOk with listing := "41 2023-12-31 11:00:00" }

/-- Claim C1 counterexample: a `switch` run on the remote host `h1` in
which the temp dir, the build, canonicalize and the copy all succeed, yet
the task returns `Err` — the Generation Inspector found no current
generation and the `?` operator aborts the task instead of latching
`failed` and running cleanup. -/
theorem upload_ok_despite_inspector_error_refuted :
    envNoCurrent.tempdirOk = true ∧ envNoCurrent.exec 0 = true ∧
    envNoCurrent.canonOk = true ∧
    (copyPhase cfgRemote "h1" envNoCurrent.canon (shift envNoCurrent.exec 1)).2.2 = true ∧
    (build_task bsSwitch cfgRemote "h1" envNoCurrent).2 =
      .error (.inspect "failed to find generation") := by
  refine ⟨rfl, rfl, rfl, rfl, ?_⟩
  rfl

/-- Claim C1 (amended): for an Upload-mode run that reaches the post-copy
phases (local setup, build and upload succeeded), the task returns `Ok(())`
iff rollback is disabled or the generation inspection — the elevated
listing command and the unique-current parse — succeeds.  Marker placement,
watchdog scheduling, profile switch and activation failures are latched and
do not affect the returned value, but an inspection failure aborts the task
with `Err` (cleanup does not run), contrary to the original claim. -/
theorem upload_result_characterized (bs : BuildSystems) (cfg : Config) (host : String)
    (env : Env) (a : UploadAction)
    (hmode : Action.ofSubcommand bs.subcommand = .upload (some a))
    (ht : env.tempdirOk = true) (hb : env.exec 0 = true) (hc : env.canonOk = true)
    (hcp : (copyPhase cfg host env.canon (shift env.exec 1)).2.2 = true) :
    ((build_task bs cfg host env).2 = .ok ()) ↔
      (bs.disable_rollback = true ∨
        (env.exec (1 + (copyPhase cfg host env.canon (shift env.exec 1)).2.1) = true ∧
          ∃ g, get_current_generation env.listing = .ok g)) := by
  rw [build_task_upload bs cfg host env (some a) hmode ht hb hc hcp]
  simp only [afterCopy]
  cases hdr : bs.disable_rollback with
  | true => simp [uploadRest, hdr]
  | false =>
    rw [uploadRest_result bs a env.canon _ env.listing hdr]
    simp [shift]

/-- Claim C1 witness: the amended characterization applied to a fully
successful `switch` run on `h1`, giving `Ok(())`. -/
theorem upload_result_characterized_witness :
    (build_task bsSwitch cfgRemote "h1" envOk).2 = .ok () :=
  (upload_result_characterized bsSwitch cfgRemote "h1" envOk .switch rfl rfl rfl rfl rfl).mpr
    (Or.inr ⟨rfl, ⟨42, true, "2024-01-01 12:00:00"⟩, rfl⟩)

/-- An environment where only the sixth command (the profile switch of a
rollback-armed `switch` run) fails. -/
def envSwitchCmdFail : Env := { envOk with exec := fun i => decide (i ≠ 5) }

/-- Claim C2: in an Upload-mode run with rollback enabled whose Arm phase
completes with the latch clear, exactly one of the two finalize commands is
issued before the task ends — the remove-marker command `rm -f
/etc/fleet_rollback_marker` when no later phase failed, the rollback
trigger `systemctl start rollback-watchdog.service` when the profile switch
or the activation failed — never both, never neither. -/
theorem finalize_exactly_one (bs : BuildSystems) (cfg : Config) (host : String) (env : Env)
    (a : UploadAction) (t : List Event) (n : Nat)
    (hmode : Action.ofSubcommand bs.subcommand = .upload (some a))
    (hdr : bs.disable_rollback = false)
    (ht : env.tempdirOk = true) (hb : env.exec 0 = true) (hc : env.canonOk = true)
    (hcp : (copyPhase cfg host env.canon (shift env.exec 1)).2.2 = true)
    (harm : armPhase a
        (shift env.exec (1 + (copyPhase cfg host env.canon (shift env.exec 1)).2.1))
        env.listing = (t, n, .armed false)) :
    countCmd (build_task bs cfg host env).1 removeMarkerCmd true +
        countCmd (build_task bs cfg host env).1 rollbackTriggerCmd true = 1 ∧
      (countCmd (build_task bs cfg host env).1 rollbackTriggerCmd true = 1 ↔
        (switchActivate a env.canon false
          (shift (shift env.exec (1 + (copyPhase cfg host env.canon (shift env.exec 1)).2.1))
            n)).2.2 = true) := by
  rw [build_task_upload bs cfg host env (some a) hmode ht hb hc hcp]
  simp only [afterCopy]
  rw [uploadRest_armed bs a env.canon
    (shift env.exec (1 + (copyPhase cfg host env.canon (shift env.exec 1)).2.1))
    env.listing t n false hdr harm]
  simp only [countCmd_append]
  have hb0 : ∀ c, countCmd
      [Event.run (buildCmd bs cfg host env.built (.upload (some a))) false] c true = 0 := by
    intro c
    apply countCmd_eq_zero
    intro ev hev
    rw [List.mem_singleton] at hev
    subst hev
    simp
  have hcp0 : ∀ c, countCmd (copyPhase cfg host env.canon (shift env.exec 1)).1 c true = 0 := by
    intro c
    apply countCmd_eq_zero
    intro ev hev
    rcases copyPhase_mem cfg host env.canon (shift env.exec 1) ev hev with h | h <;>
      subst h <;> simp
  have ht0r : countCmd t removeMarkerCmd true = 0 := by
    have h := armPhase_count_remove a
      (shift env.exec (1 + (copyPhase cfg host env.canon (shift env.exec 1)).2.1)) env.listing
    rw [harm] at h
    exact h
  have ht0t : countCmd t rollbackTriggerCmd true = 0 := by
    have h := armPhase_count_trigger a
      (shift env.exec (1 + (copyPhase cfg host env.canon (shift env.exec 1)).2.1)) env.listing
    rw [harm] at h
    exact h
  have hsa0r : ∀ o2 : Nat → Bool,
      countCmd (switchActivate a env.canon false o2).1 removeMarkerCmd true = 0 := by
    intro o2
    exact switchActivate_count_zero a env.canon false o2 removeMarkerCmd
      (switchProfileCmd_ne env.canon removeMarkerCmd (by decide))
      (activateCmd_ne env.canon a removeMarkerCmd (by decide))
  have hsa0t : ∀ o2 : Nat → Bool,
      countCmd (switchActivate a env.canon false o2).1 rollbackTriggerCmd true = 0 := by
    intro o2
    exact switchActivate_count_zero a env.canon false o2 rollbackTriggerCmd
      (switchProfileCmd_ne env.canon rollbackTriggerCmd (by decide))
      (activateCmd_ne env.canon a rollbackTriggerCmd (by decide))
  simp only [hb0, hcp0, ht0r, ht0t, hsa0r, hsa0t, finalizeDisarm_count_remove,
    finalizeDisarm_count_trigger]
  cases hf : (switchActivate a env.canon false
      (shift (shift env.exec (1 + (copyPhase cfg host env.canon (shift env.exec 1)).2.1))
        n)).2.2 <;>
    simp [hf]

/-- Claim C2 witness: a `switch` run on `h1` where the profile switch
fails after a clean Arm phase; exactly one finalize command is issued. -/
theorem finalize_exactly_one_witness :
    countCmd (build_task bsSwitch cfgRemote "h1" envSwitchCmdFail).1 removeMarkerCmd true +
      countCmd (build_task bsSwitch cfgRemote "h1" envSwitchCmdFail).1 rollbackTriggerCmd
        true = 1 :=
  (finalize_exactly_one bsSwitch cfgRemote "h1" envSwitchCmdFail .switch
      [Event.run listGenCmd true, Event.run (markerCmd 42) true, Event.run scheduleCmd true] 3
      rfl rfl rfl rfl rfl rfl (by rfl)).1

theorem buildCmd_ne_copyCmd (bs : BuildSystems) (cfg : Config) (host built : String)
    (act : Action) (h2 b2 : String) : buildCmd bs cfg host built act ≠ copyCmd h2 b2 := by
  intro h
  have ha := congrArg (fun c => c.args.head?) h
  simp [buildCmd, copyCmd] at ha

theorem uploadRest_elevated (bs : BuildSystems) (a : UploadAction) (built : String)
    (o : Nat → Bool) (l : String) :
    ∀ e ∈ (uploadRest bs a built o l).1, ∃ c, e = Event.run c true := by
  intro e he
  unfold uploadRest at he
  by_cases hdr : bs.disable_rollback = true
  · rw [if_pos hdr] at he
    rcases switchActivate_mem a built false o e he with h | h
    · exact ⟨_, h⟩
    · exact ⟨_, h⟩
  · rw [if_neg hdr] at he
    have hmem := armPhase_mem a o l
    rcases harm : armPhase a o l with ⟨t, n, out⟩
    rw [harm] at he hmem
    cases out with
    | aborted err =>
      simp only at he
      rcases hmem e he with h | ⟨g, h⟩ | h
      · exact ⟨_, h⟩
      · exact ⟨_, h⟩
      · exact ⟨_, h⟩
    | armed f =>
      simp only [List.mem_append] at he
      rcases he with (he | he) | he
      · rcases hmem e he with h | ⟨g, h⟩ | h
        · exact ⟨_, h⟩
        · exact ⟨_, h⟩
        · exact ⟨_, h⟩
      · rcases switchActivate_mem a built f (shift o n) e he with h | h
        · exact ⟨_, h⟩
        · exact ⟨_, h⟩
      · rcases finalizeDisarm_mem a _ e he with h | h | h | h
        · exact ⟨_, h⟩
        · exact ⟨_, h⟩
        · exact ⟨_, h⟩
        · exact ⟨_, h⟩

theorem afterCopy_elevated (bs : BuildSystems) (mode : Option UploadAction) (built : String)
    (o : Nat → Bool) (l : String) :
    ∀ e ∈ (afterCopy bs mode built o l).1, ∃ c, e = Event.run c true := by
  intro e he
  cases mode with
  | none => simp [afterCopy] at he
  | some a => exact uploadRest_elevated bs a built o l e he

theorem copyPhase_count_le (cfg : Config) (host built : String) (o : Nat → Bool) :
    countCmd (copyPhase cfg host built o).1 (copyCmd host built) false ≤ 4 := by
  unfold copyPhase
  cases hl : cfg.is_local host with
  | true => simp [countCmd]
  | false =>
    simp only [hl, Bool.false_eq_true, if_false]
    exact copyLoop_count_le _ 3 o

theorem build_task_copy_count (bs : BuildSystems) (cfg : Config) (host : String) (env : Env)
    (mode : Option UploadAction)
    (hmode : Action.ofSubcommand bs.subcommand = .upload mode) :
    countCmd (build_task bs cfg host env).1 (copyCmd host env.canon) false ≤ 4 := by
  have hbuild0 : countCmd [Event.run (buildCmd bs cfg host env.built (.upload mode)) false]
      (copyCmd host env.canon) false = 0 := by
    apply countCmd_eq_zero
    intro ev hev
    rw [List.mem_singleton] at hev
    subst hev
    simp [buildCmd_ne_copyCmd]
  unfold build_task
  rw [hmode]
  cases ht : env.tempdirOk with
  | false => simp [countCmd]
  | true =>
    simp only [if_pos]
    cases hb : env.exec 0 with
    | false =>
      simp only [Bool.false_eq_true, if_false]
      rw [hbuild0]
      omega
    | true =>
      simp only [if_pos]
      cases hc : env.canonOk with
      | false =>
        simp only [Bool.false_eq_true, if_false]
        rw [hbuild0]
        omega
      | true =>
        simp only [if_pos]
        cases hcp : (copyPhase cfg host env.canon (shift env.exec 1)).2.2 with
        | false =>
          simp only [hcp, Bool.false_eq_true, if_false, countCmd_append]
          have h1 := copyPhase_count_le cfg host env.canon (shift env.exec 1)
          omega
        | true =>
          simp only [hcp, if_pos, countCmd_append]
          have h1 := copyPhase_count_le cfg host env.canon (shift env.exec 1)
          have h2 : countCmd (afterCopy bs mode env.canon
              (shift env.exec (1 + (copyPhase cfg host env.canon (shift env.exec 1)).2.1))
              env.listing).1 (copyCmd host env.canon) false = 0 := by
            apply countCmd_eq_zero
            intro ev hev
            obtain ⟨c, rfl⟩ := afterCopy_elevated bs mode env.canon _ env.listing ev hev
            simp
          omega

/-- An environment where the build succeeds but every copy attempt fails. -/
def envCopyFail : Env := { envOk with exec := fun i => decide (i = 0) }

/-- Claim C3: in an Upload-mode run on a non-local host, the `nix copy`
command is attempted at most four times (one initial plus three retries),
every run issues at most four copy commands, consecutive attempts are
separated by the 5000 ms sleep, and when all four attempts fail the task
returns `Err upload` with a trace holding nothing but the build command and
the four copies with their sleeps — no listing, marker or watchdog command
was or will be issued. -/
theorem copy_retry_bound_and_abort (bs : BuildSystems) (cfg : Config) (host : String)
    (env : Env) (mode : Option UploadAction)
    (hmode : Action.ofSubcommand bs.subcommand = .upload mode)
    (hlocal : cfg.is_local host = false)
    (ht : env.tempdirOk = true) (hb : env.exec 0 = true) (hc : env.canonOk = true)
    (hfail : ∀ i < 4, env.exec (1 + i) = false) :
    (∀ env2 : Env,
      countCmd (build_task bs cfg host env2).1 (copyCmd host env2.canon) false ≤ 4) ∧
    build_task bs cfg host env =
      ([Event.run (buildCmd bs cfg host env.built (.upload mode)) false]
          ++ (copyFailTrace (copyCmd host env.canon) 3
            ++ [Event.run (copyCmd host env.canon) false]),
        .error .upload) := by
  refine ⟨fun env2 => build_task_copy_count bs cfg host env2 mode hmode, ?_⟩
  have hcp : copyPhase cfg host env.canon (shift env.exec 1) =
      (copyFailTrace (copyCmd host env.canon) 3
        ++ [Event.run (copyCmd host env.canon) false], 4, false) := by
    unfold copyPhase
    rw [hlocal]
    simp only [Bool.false_eq_true, if_false]
    exact copyLoop_allFail _ _ (fun i hi => hfail i hi)
  have hcp2 : (copyPhase cfg host env.canon (shift env.exec 1)).2.2 = false := by rw [hcp]
  rw [build_task_upload_copyFail bs cfg host env mode hmode ht hb hc hcp2, hcp]

/-- Claim C3 witness: a `switch` run on `h1` where all four copy attempts
fail returns the upload error. -/
theorem copy_retry_bound_and_abort_witness :
    (build_task bsSwitch cfgRemote "h1" envCopyFail).2 = .error .upload := by
  have h := (copy_retry_bound_and_abort bsSwitch cfgRemote "h1" envCopyFail (some .switch)
    rfl rfl rfl rfl rfl (by decide)).2
  rw [h]

theorem markerCmd_program (g : Nat) : (markerCmd g).program = "sh" := rfl

theorem build_task_mem (bs : BuildSystems) (cfg : Config) (host : String) (env : Env)
    (mode : Option UploadAction)
    (hmode : Action.ofSubcommand bs.subcommand = .upload mode) :
    ∀ e ∈ (build_task bs cfg host env).1,
      e = Event.run (buildCmd bs cfg host env.built (.upload mode)) false ∨
      e = Event.run (copyCmd host env.canon) false ∨
      e = Event.sleepMs 5000 ∨
      ∃ a, mode = some a ∧ e ∈ (uploadRest bs a env.canon
        (shift env.exec (1 + (copyPhase cfg host env.canon (shift env.exec 1)).2.1))
        env.listing).1 := by
  intro e he
  unfold build_task at he
  rw [hmode] at he
  cases ht : env.tempdirOk with
  | false => simp [ht] at he
  | true =>
    rw [ht] at he
    simp only [if_true] at he
    cases hb : env.exec 0 with
    | false =>
      rw [hb] at he
      simp only [Bool.false_eq_true, if_false, List.mem_singleton] at he
      exact Or.inl he
    | true =>
      rw [hb] at he
      simp only [if_true] at he
      cases hc : env.canonOk with
      | false =>
        rw [hc] at he
        simp only [Bool.false_eq_true, if_false, List.mem_singleton] at he
        exact Or.inl he
      | true =>
        rw [hc] at he
        simp only [if_true] at he
        cases hcp : (copyPhase cfg host env.canon (shift env.exec 1)).2.2 with
        | false =>
          rw [hcp] at he
          simp only [Bool.false_eq_true, if_false, List.mem_append,
            List.mem_singleton] at he
          rcases he with he | he
          · exact Or.inl he
          · rcases copyPhase_mem cfg host env.canon (shift env.exec 1) e he with h | h
            · exact Or.inr (Or.inl h)
            · exact Or.inr (Or.inr (Or.inl h))
        | true =>
          rw [hcp] at he
          simp only [if_true, List.mem_append, List.mem_singleton] at he
          rcases he with (he | he) | he
          · exact Or.inl he
          · rcases copyPhase_mem cfg host env.canon (shift env.exec 1) e he with h | h
            · exact Or.inr (Or.inl h)
            · exact Or.inr (Or.inr (Or.inl h))
          · cases mode with
            | none => simp [afterCopy] at he
            | some a => exact Or.inr (Or.inr (Or.inr ⟨a, rfl, he⟩))

/-- Claim C4: the plain `upload` subcommand on a non-local host issues only
the build and the `nix copy` commands (with the retry sleeps) — no
generation listing, no marker work, no profile switch, no activation and no
watchdog command — and returns `Ok(())` when build and copy succeed,
whatever the `disable_rollback` flag. -/
theorem upload_subcommand_only_build_copy (bs : BuildSystems) (cfg : Config) (host : String)
    (env : Env) (hsub : bs.subcommand = .upload) (hlocal : cfg.is_local host = false) :
    (∀ e ∈ (build_task bs cfg host env).1,
      e = Event.run (buildCmd bs cfg host env.built (.upload none)) false ∨
        e = Event.run (copyCmd host env.canon) false ∨ e = Event.sleepMs 5000) ∧
    (env.tempdirOk = true → env.exec 0 = true → env.canonOk = true →
      (copyPhase cfg host env.canon (shift env.exec 1)).2.2 = true →
      (build_task bs cfg host env).2 = .ok ()) := by
  have hmode : Action.ofSubcommand bs.subcommand = .upload none := by rw [hsub]; rfl
  constructor
  · intro e he
    rcases build_task_mem bs cfg host env none hmode e he with h | h | h | ⟨a, ha, _⟩
    · exact Or.inl h
    · exact Or.inr (Or.inl h)
    · exact Or.inr (Or.inr h)
    · exact absurd ha (by simp)
  · intro ht hb hc hcp
    rw [build_task_upload bs cfg host env none hmode ht hb hc hcp]
    simp [afterCopy]

/-- Claim C4 witness: a successful plain `upload` run on `h1` returns
`Ok(())`. -/
theorem upload_subcommand_only_build_copy_witness :
    (build_task { bsSwitch with subcommand := .upload } cfgRemote "h1" envOk).2 = .ok () :=
  (upload_subcommand_only_build_copy { bsSwitch with subcommand := .upload } cfgRemote "h1"
    envOk rfl rfl).2 rfl rfl rfl rfl

/-- Claim C5: with `disable_rollback` set, an Upload-mode run never issues
a command naming `rollback-watchdog.timer`, `rollback-watchdog.service` or
`rollback-watchdog-run`, nor any command writing or removing
`/etc/fleet_rollback_marker`: the marker placement, the watchdog
scheduling, the rollback trigger, the marker removal and both disarm
commands are all absent from the trace. -/
theorem disable_rollback_no_marker_or_watchdog (bs : BuildSystems) (cfg : Config)
    (host : String) (env : Env) (mode : Option UploadAction)
    (hmode : Action.ofSubcommand bs.subcommand = .upload mode)
    (hdr : bs.disable_rollback = true) :
    ∀ e ∈ (build_task bs cfg host env).1,
      (∀ g, e ≠ Event.run (markerCmd g) true) ∧
      e ≠ Event.run scheduleCmd true ∧ e ≠ Event.run rollbackTriggerCmd true ∧
      e ≠ Event.run removeMarkerCmd true ∧ e ≠ Event.run stopTimerCmd true ∧
      e ≠ Event.run stopRunTimerCmd true := by
  intro e he
  rcases build_task_mem bs cfg host env mode hmode e he with h | h | h | ⟨a, ha, hrest⟩
  · subst h
    exact ⟨fun g => by simp, by simp, by simp, by simp, by simp, by simp⟩
  · subst h
    exact ⟨fun g => by simp, by simp, by simp, by simp, by simp, by simp⟩
  · subst h
    exact ⟨fun g => by simp, by simp, by simp, by simp, by simp, by simp⟩
  · rw [show uploadRest bs a env.canon
        (shift env.exec (1 + (copyPhase cfg host env.canon (shift env.exec 1)).2.1))
        env.listing = ((switchActivate a env.canon false
          (shift env.exec (1 + (copyPhase cfg host env.canon (shift env.exec 1)).2.1))).1,
        .ok ()) from by unfold uploadRest; rw [if_pos hdr]] at hrest
    rcases switchActivate_mem a env.canon false _ e hrest with h | h
    · subst h
      refine ⟨fun g => ?_, ?_, ?_, ?_, ?_, ?_⟩ <;>
        [skip; skip; skip; skip; skip; skip] <;>
        · simp only [ne_eq, Event.run.injEq, not_and]
          intro hc
          exact absurd hc (switchProfileCmd_ne env.canon _ (by first
            | rw [markerCmd_program]; decide
            | decide))
    · subst h
      refine ⟨fun g => ?_, ?_, ?_, ?_, ?_, ?_⟩ <;>
        [skip; skip; skip; skip; skip; skip] <;>
        · simp only [ne_eq, Event.run.injEq, not_and]
          intro hc
          exact absurd hc (activateCmd_ne env.canon a _ (by first
            | rw [markerCmd_program]; decide
            | decide))

/-- Claim C5 witness: a `switch` run with rollback disabled on `h1`; its
first trace element (the build) is none of the six forbidden commands. -/
theorem disable_rollback_no_marker_or_watchdog_witness :
    Event.run (buildCmd bsSwitchNoRb cfgRemote "h1"
      envOk.built (.upload (some .switch))) false ≠ Event.run (markerCmd 42) true :=
  (disable_rollback_no_marker_or_watchdog bsSwitchNoRb
    cfgRemote "h1" envOk (some .switch) rfl rfl _ (by decide)).1 42

/-- Claim C8: given a successful host enumeration, the dispatcher spawns
one deploy task for exactly the hosts whose `should_skip` is false, each
task's error is caught by the logging wrapper without affecting the
others, and the dispatcher returns `Ok(())` whatever the per-host
outcomes. -/
theorem dispatcher_spawns_and_catches (bs : BuildSystems) (cfg : Config)
    (env : String → Env) :
    (run bs cfg env).2 = .ok () ∧
    (run bs cfg env).1.map Prod.fst = cfg.hosts.filter (fun h => !cfg.should_skip h) ∧
    ∀ p ∈ (run bs cfg env).1, p.2 = logTaskError (build_task bs cfg p.1 (env p.1)).2 := by
  refine ⟨rfl, ?_, ?_⟩
  · simp only [run, List.map_map]
    have hcomp : (Prod.fst ∘ fun h => (h, logTaskError (build_task bs cfg h (env h)).2)) =
        id := rfl
    rw [hcomp, List.map_id]
  · intro p hp
    simp only [run, List.mem_map] at hp
    obtain ⟨h, _, rfl⟩ := hp
    rfl

/-- Claim C8 witness: on the one-host configuration the dispatcher spawns
the task for `h1` and its wrapper logs nothing for the successful run. -/
theorem dispatcher_spawns_and_catches_witness :
    (run bsSwitch cfgRemote (fun _ => envOk)).1.map Prod.fst = ["h1"] ∧
    (("h1", (none : Option DeployError)).2 =
      logTaskError (build_task bsSwitch cfgRemote "h1" envOk).2) :=
  ⟨by rw [(dispatcher_spawns_and_catches bsSwitch cfgRemote (fun _ => envOk)).2.1]; rfl,
    (dispatcher_spawns_and_catches bsSwitch cfgRemote (fun _ => envOk)).2.2
      ("h1", none) (by decide)⟩

/-- Claim C9: retries are observationally transparent.  If the first `k`
copy attempts fail and attempt `k + 1` succeeds, the whole remainder of the
run — every later command, the latch evolution and the returned value — is
the continuation `afterCopy` at the same oracle suffix as in the run whose
first copy attempt succeeds; the two traces differ only in the copy
attempts and the interleaved sleeps. -/
theorem copy_retry_transparent (bs : BuildSystems) (cfg : Config) (host : String)
    (env1 env2 : Env) (mode : Option UploadAction) (k : Nat)
    (hmode : Action.ofSubcommand bs.subcommand = .upload mode)
    (hlocal : cfg.is_local host = false)
    (ht1 : env1.tempdirOk = true) (hb1 : env1.exec 0 = true) (hc1 : env1.canonOk = true)
    (ht2 : env2.tempdirOk = true) (hb2 : env2.exec 0 = true) (hc2 : env2.canonOk = true)
    (hbuilt : env2.built = env1.built) (hcanon : env2.canon = env1.canon)
    (hlist : env2.listing = env1.listing)
    (hk : k ≤ 3)
    (hfail : ∀ i < k, env1.exec (1 + i) = false) (hok : env1.exec (1 + k) = true)
    (h2ok : env2.exec 1 = true)
    (hagree : ∀ j, env2.exec (2 + j) = env1.exec (2 + k + j)) :
    build_task bs cfg host env1 =
      ([Event.run (buildCmd bs cfg host env1.built (.upload mode)) false]
          ++ (copyFailTrace (copyCmd host env1.canon) k
              ++ [Event.run (copyCmd host env1.canon) false])
          ++ (afterCopy bs mode env1.canon (shift env1.exec (2 + k)) env1.listing).1,
        (afterCopy bs mode env1.canon (shift env1.exec (2 + k)) env1.listing).2) ∧
    build_task bs cfg host env2 =
      ([Event.run (buildCmd bs cfg host env1.built (.upload mode)) false]
          ++ [Event.run (copyCmd host env1.canon) false]
          ++ (afterCopy bs mode env1.canon (shift env1.exec (2 + k)) env1.listing).1,
        (afterCopy bs mode env1.canon (shift env1.exec (2 + k)) env1.listing).2) := by
  have hcp1 : copyPhase cfg host env1.canon (shift env1.exec 1) =
      (copyFailTrace (copyCmd host env1.canon) k
        ++ [Event.run (copyCmd host env1.canon) false], k + 1, true) := by
    unfold copyPhase
    rw [hlocal]
    simp only [Bool.false_eq_true, if_false]
    exact copyLoop_firstFail _ _ k hk (fun i hi => hfail i hi) hok
  have hcp2 : copyPhase cfg host env2.canon (shift env2.exec 1) =
      ([Event.run (copyCmd host env2.canon) false], 1, true) := by
    unfold copyPhase
    rw [hlocal]
    simp only [Bool.false_eq_true, if_false]
    have h := copyLoop_firstFail (copyCmd host env2.canon) (shift env2.exec 1) 0 (by omega)
      (fun i hi => absurd hi (by omega)) h2ok
    simpa [copyFailTrace] using h
  have hosh : shift env2.exec 2 = shift env1.exec (2 + k) := by
    funext j
    show env2.exec (2 + j) = env1.exec (2 + k + j)
    exact hagree j
  constructor
  · rw [build_task_upload bs cfg host env1 mode hmode ht1 hb1 hc1 (by rw [hcp1])]
    rw [hcp1]
    have he : 1 + (k + 1) = 2 + k := by omega
    simp only [he]
  · rw [build_task_upload bs cfg host env2 mode hmode ht2 hb2 hc2 (by rw [hcp2])]
    rw [hcp2]
    simp only [hbuilt, hcanon, hlist]
    norm_num
    rw [hosh]
    exact ⟨rfl, rfl⟩

/-- An environment whose second command (the sole failing copy attempt)
fails and everything else succeeds. -/
def envOneCopyFail : Env := { envOk with exec := fun i => decide (i ≠ 1) }

/-- Claim C9 witness: with one failing copy attempt on `h1`, both the
retried run and the immediately-successful run evaluate to the shapes the
transparency theorem gives, with a shared continuation. -/
theorem copy_retry_transparent_witness :
    build_task bsSwitch cfgRemote "h1" envOneCopyFail =
      ([Event.run (buildCmd bsSwitch cfgRemote "h1" envOneCopyFail.built
            (.upload (some .switch))) false]
          ++ (copyFailTrace (copyCmd "h1" envOneCopyFail.canon) 1
              ++ [Event.run (copyCmd "h1" envOneCopyFail.canon) false])
          ++ (afterCopy bsSwitch (some .switch) envOneCopyFail.canon
              (shift envOneCopyFail.exec 3) envOneCopyFail.listing).1,
        (afterCopy bsSwitch (some .switch) envOneCopyFail.canon
            (shift envOneCopyFail.exec 3) envOneCopyFail.listing).2) :=
  (copy_retry_transparent bsSwitch cfgRemote "h1" envOneCopyFail envOk (some .switch) 1
    rfl rfl rfl rfl rfl rfl rfl rfl rfl rfl rfl (by omega) (by decide) rfl rfl
    (fun j => by simp [envOk, envOneCopyFail, allOk]; omega)).1

/-- Claim C10: a `switch` or `boot` run with rollback disabled in which the
profile switch succeeds and the next command fails issues no further remote
command — no rollback trigger, no revert, no disarm — and still returns
`Ok(())`: after the build and the copy the trace holds exactly the profile
switch and, for `switch` only, the failed activation. -/
theorem disable_rollback_switch_failure_ok (bs : BuildSystems) (cfg : Config) (host : String)
    (env : Env)
    (hsub : bs.subcommand = Subcommand.switch ∨ bs.subcommand = Subcommand.boot)
    (hdr : bs.disable_rollback = true)
    (ht : env.tempdirOk = true) (hb : env.exec 0 = true) (hc : env.canonOk = true)
    (hcp : (copyPhase cfg host env.canon (shift env.exec 1)).2.2 = true)
    (hswitch : env.exec (1 + (copyPhase cfg host env.canon (shift env.exec 1)).2.1) = true)
    (hact : env.exec (1 + (copyPhase cfg host env.canon (shift env.exec 1)).2.1 + 1)
      = false) :
    build_task bs cfg host env =
      ([Event.run (buildCmd bs cfg host env.built (Action.ofSubcommand bs.subcommand)) false]
          ++ (copyPhase cfg host env.canon (shift env.exec 1)).1
          ++ ([Event.run (switchProfileCmd env.canon) true]
            ++ (if bs.subcommand = Subcommand.switch then
                [Event.run (activateCmd env.canon .switch) true] else [])),
        .ok ()) := by
  have ho0 : shift env.exec (1 + (copyPhase cfg host env.canon (shift env.exec 1)).2.1) 0
      = true := by simpa [shift] using hswitch
  have ho1 : shift env.exec (1 + (copyPhase cfg host env.canon (shift env.exec 1)).2.1) 1
      = false := by simpa [shift] using hact
  rcases hsub with hsub | hsub
  · have hmode : Action.ofSubcommand bs.subcommand = .upload (some .switch) := by
      rw [hsub]; rfl
    rw [build_task_upload bs cfg host env (some .switch) hmode ht hb hc hcp]
    simp only [afterCopy, hmode]
    unfold uploadRest
    rw [if_pos hdr]
    unfold switchActivate switchPhase activatePhase
    simp [UploadAction.should_switch_profile, UploadAction.should_activate, ho0, ho1, hsub]
  · have hmode : Action.ofSubcommand bs.subcommand = .upload (some .boot) := by
      rw [hsub]; rfl
    rw [build_task_upload bs cfg host env (some .boot) hmode ht hb hc hcp]
    simp only [afterCopy, hmode]
    unfold uploadRest
    rw [if_pos hdr]
    unfold switchActivate switchPhase activatePhase
    simp [UploadAction.should_switch_profile, UploadAction.should_activate, ho0, ho1, hsub]

/-- An environment where the seventh command of a rollback-disabled
`switch` run — the activation — fails. -/
def envActivateFail : Env := { envOk with exec := fun i => decide (i ≠ 3) }

/-- Claim C10 witness: a rollback-disabled `switch` run on `h1` whose
activation fails still returns `Ok(())`. -/
theorem disable_rollback_switch_failure_ok_witness :
    (build_task bsSwitchNoRb cfgRemote "h1" envActivateFail).2 = .ok () := by
  have h := disable_rollback_switch_failure_ok bsSwitchNoRb cfgRemote "h1" envActivateFail
    (Or.inl rfl) rfl rfl rfl rfl rfl rfl rfl
  rw [h]

end Fleet
